import Mathlib

/-!
Verification of the clipboard change-watching subsystem of
`node-clipboard-rs` (src/src/lib.rs), shallowly embedded in Lean 4.

The external collaborators (the `clipboard_rs` context, the Wayland
paste-stream primitive, base64 and PNG codecs, the napi threadsafe-function
machinery, `std::sync::mpsc` channels and `std::env`) are modelled at their
interface boundary: a `ClipboardContext` is a record of the presence check
and the per-format fetch results, process environment is a record of the two
relevant variables, and channel/thread behaviour is described by explicit
outcome values.  The functions `get_clipboard_data`,
`wayland_context_to_clipboard_data`, `is_wayland_environment`,
`ClipboardManager.has_format`, `set_image_base64` and the
`ClipboardListener` operations are transcribed from the Rust source.
-/

namespace NodeClipboardRs

/-- Image payload, mirroring the Rust `ImageData` napi object.
`width`, `height` and `size` are `u32` in the source; they are modelled as
`Nat` with an explicit `% 2^32` at the one place a cast (`as u32`) occurs.
`data` is the byte buffer, modelled as a list of byte values. -/
structure ImageData where
  width : Nat
  height : Nat
  size : Nat
  data : List Nat
  deriving DecidableEq, Repr

/-- Clipboard snapshot, mirroring the Rust `ClipboardData` napi object. -/
structure ClipboardData where
  available_formats : List String
  text : Option String
  rtf : Option String
  html : Option String
  image : Option ImageData
  files : Option (List String)
  deriving DecidableEq, Repr

/-- The five canonical formats of `clipboard_rs::ContentFormat` used by this
crate. -/
inductive ContentFormat where
  | Text
  | Rtf
  | Html
  | Image
  | Files
  deriving DecidableEq, Repr

/-- Model of `clipboard_rs::common::RustImageData` at its interface boundary:
`get_size` reports the pixel dimensions and `to_png` is the PNG encoding,
`none` when encoding fails (`.ok()` of the Rust `Result`). -/
structure RustImageData where
  get_size : Nat × Nat
  to_png : Option (List Nat)
  deriving DecidableEq, Repr

/-- Model of a live `clipboard_rs::ClipboardContext` at its interface
boundary: the presence check `has` and the result of each fetch primitive,
with `none` standing for a failed fetch (the source only ever uses `.ok()`
of these results inside the aggregator). -/
structure ClipboardContext where
  has : ContentFormat → Bool
  get_text : Option String
  get_rich_text : Option String
  get_html : Option String
  get_image : Option RustImageData
  get_files : Option (List String)

/-- The `format_checks` array of `get_clipboard_data` in the source:
tag names paired with `ContentFormat` values, in the fixed probe order. -/
def format_checks : List (String × ContentFormat) :=
  [("text", ContentFormat.Text),
   ("rtf", ContentFormat.Rtf),
   ("html", ContentFormat.Html),
   ("image", ContentFormat.Image),
   ("files", ContentFormat.Files)]

/-- The image fetch of the aggregator's `"image"` arm:
`context.get_image().ok().and_then(|img| { let (w,h) = img.get_size();
img.to_png().ok().map(|png| ImageData { w, h, bytes.len() as u32, bytes }) })`. -/
def fetch_image (context : ClipboardContext) : Option ImageData :=
  context.get_image.bind fun img_data =>
    let wh := img_data.get_size
    img_data.to_png.map fun png_bytes =>
      { width := wh.1, height := wh.2,
        size := png_bytes.length % 4294967296,
        data := png_bytes }

/-- Accumulator for the aggregator loop: the mutable locals of
`get_clipboard_data` (`available_formats`, `text`, `rtf`, `html`, `image`,
`files`). -/
structure AggState where
  available_formats : List String
  text : Option String
  rtf : Option String
  html : Option String
  image : Option ImageData
  files : Option (List String)

/-- One iteration of the aggregator loop body: if the presence check for the
format succeeds, push the tag and run the matching fetch, storing `.ok()` of
its result; otherwise leave the state untouched. -/
def agg_step (context : ClipboardContext) (st : AggState)
    (fc : String × ContentFormat) : AggState :=
  if context.has fc.2 then
    let st' := { st with available_formats := st.available_formats ++ [fc.1] }
    match fc.1 with
    | "text" => { st' with text := context.get_text }
    | "rtf" => { st' with rtf := context.get_rich_text }
    | "html" => { st' with html := context.get_html }
    | "image" => { st' with image := fetch_image context }
    | "files" => { st' with files := context.get_files }
    | _ => st'
  else st

/-- Transcription of `get_clipboard_data` from the source: iterate `format_checks` in order,
probe each format, and fetch content only for formats whose probe
succeeded. -/
def get_clipboard_data (context : ClipboardContext) : ClipboardData :=
  let st := format_checks.foldl (agg_step context)
    { available_formats := [], text := none, rtf := none, html := none,
      image := none, files := none }
  { available_formats := st.available_formats, text := st.text,
    rtf := st.rtf, html := st.html, image := st.image, files := st.files }

/-- Payload of a `wayland_clipboard_listener::ClipBoardListenMessage`: the
MIME type of the offer and the raw bytes received. -/
structure WlContext where
  mime_type : String
  context : List Nat
  deriving DecidableEq, Repr

/-- A Wayland paste-stream message, as accessed by the source
(`message.context.mime_type`, `message.context.context`). -/
structure ClipBoardListenMessage where
  context : WlContext
  deriving DecidableEq, Repr

/-- Whether a byte is a UTF-8 continuation byte (`0x80..0xBF`). -/
def utf8Cont (b : Nat) : Bool := 128 ≤ b && b < 192

/-- Strict UTF-8 decoding of a byte list, modelling Rust's
`String::from_utf8` validation: rejects stray continuation bytes, overlong
encodings, surrogate code points and code points above `0x10FFFF`. -/
def utf8Decode : List Nat → Option (List Char)
  | [] => some []
  | b :: rest =>
    if b < 128 then
      (utf8Decode rest).map fun cs => Char.ofNat b :: cs
    else if b < 194 then
      none
    else if b < 224 then
      match rest with
      | b1 :: rest' =>
        if utf8Cont b1 then
          (utf8Decode rest').map fun cs =>
            Char.ofNat ((b - 192) * 64 + (b1 - 128)) :: cs
        else none
      | [] => none
    else if b < 240 then
      match rest with
      | b1 :: b2 :: rest' =>
        if utf8Cont b1 && utf8Cont b2 then
          let c := (b - 224) * 4096 + (b1 - 128) * 64 + (b2 - 128)
          if c < 2048 then none
          else if 55296 ≤ c && c < 57344 then none
          else (utf8Decode rest').map fun cs => Char.ofNat c :: cs
        else none
      | _ => none
    else if b < 245 then
      match rest with
      | b1 :: b2 :: b3 :: rest' =>
        if utf8Cont b1 && utf8Cont b2 && utf8Cont b3 then
          let c := (b - 240) * 262144 + (b1 - 128) * 4096 +
            (b2 - 128) * 64 + (b3 - 128)
          if c < 65536 then none
          else if 1114111 < c then none
          else (utf8Decode rest').map fun cs => Char.ofNat c :: cs
        else none
      | _ => none
    else none

/-- Model of Rust `String::from_utf8`: `some` of the decoded string exactly
when the bytes are valid UTF-8 (the source only uses `.is_ok()`-style
pattern `if let Ok(s)`). -/
def from_utf8 (bytes : List Nat) : Option String :=
  (utf8Decode bytes).map fun cs => String.mk cs

/-- Transcription of `wayland_context_to_clipboard_data` from the source's
mutable-variable construction: each match arm below shows the final
value of `available_formats`, `text`, `html`, `image`; `rtf` and `files`
are `None` on every path.  Note the text and html arms push the tag before
attempting the UTF-8 decode, so the tag is present even when the decode
fails; only the fallback arm tags conditionally on decode success. -/
def wayland_context_to_clipboard_data (message : ClipBoardListenMessage) :
    ClipboardData :=
  match message.context.mime_type with
  | "text/plain" | "text/plain;charset=utf-8" | "UTF8_STRING" | "STRING" =>
    { available_formats := ["text"],
      text := from_utf8 message.context.context,
      rtf := none, html := none, image := none, files := none }
  | "text/html" =>
    { available_formats := ["html"],
      text := none, rtf := none,
      html := from_utf8 message.context.context,
      image := none, files := none }
  | "image/png" | "image/jpeg" | "image/gif" | "image/bmp" =>
    { available_formats := ["image"],
      text := none, rtf := none, html := none,
      image := some { width := 0, height := 0,
                      size := message.context.context.length % 4294967296,
                      data := message.context.context },
      files := none }
  | _ =>
    match from_utf8 message.context.context with
    | some text_content =>
      { available_formats := ["text"], text := some text_content,
        rtf := none, html := none, image := none, files := none }
    | none =>
      { available_formats := [], text := none, rtf := none, html := none,
        image := none, files := none }

/-- The two environment variables consulted by the environment detector.
`std::env::var` yields `Ok(value)` when the variable is set (modelled as
`some value`) and `Err` when unset (`none`); non-unicode values are not
modelled. -/
structure ProcEnv where
  wayland_display : Option String
  xdg_session_type : Option String
  deriving DecidableEq, Repr

/-- Transcription of `is_wayland_environment` (Linux build) from the source: true when
`WAYLAND_DISPLAY` is set at all (`std::env::var(..).is_ok()`, which holds
also for an empty value), or when `XDG_SESSION_TYPE` is set and equals
`"wayland"`. -/
def is_wayland_environment (env : ProcEnv) : Bool :=
  if env.wayland_display.isSome then true
  else
    match env.xdg_session_type with
    | some session_type => if session_type == "wayland" then true else false
    | none => false

/-- Value of `is_wayland_environment` on non-Linux builds: always false. -/
def is_wayland_environment_non_linux : Bool := false

/-- The claim's wording of the detector policy, written from the spec for
comparison with the transcription above: `WAYLAND_DISPLAY` must be set AND
non-empty, or `XDG_SESSION_TYPE` must equal `"wayland"`. -/
def claimed_wayland_environment (env : ProcEnv) : Bool :=
  (match env.wayland_display with
   | some s => s != ""
   | none => false) ||
  env.xdg_session_type == some "wayland"

/-- napi error statuses used by this crate. -/
inductive Status where
  | GenericFailure
  | InvalidArg
  deriving DecidableEq, Repr

/-- A napi `Error`: a status together with a human-readable message. -/
structure NapiError where
  status : Status
  message : String
  deriving DecidableEq, Repr

/-- The status of an `Except` result, `none` on success. -/
def errStatus {α : Type} : Except NapiError α → Option Status
  | Except.error e => some e.status
  | Except.ok _ => none

/-- Transcription of `ClipboardManager::has_format` from the source: map the format string to
a `ContentFormat` (with `"rtf"` and `"rich_text"` both mapping to `Rtf`),
failing with `Status::InvalidArg` on any other string, then query the
context's presence check.  The receiver is `&self`, so the context is
returned unchanged alongside the result. -/
def has_format (context : ClipboardContext) (format : String) :
    Except NapiError Bool × ClipboardContext :=
  (match format with
   | "text" => Except.ok (context.has ContentFormat.Text)
   | "html" => Except.ok (context.has ContentFormat.Html)
   | "rtf" | "rich_text" => Except.ok (context.has ContentFormat.Rtf)
   | "image" => Except.ok (context.has ContentFormat.Image)
   | "files" => Except.ok (context.has ContentFormat.Files)
   | _ => Except.error
       { status := Status.InvalidArg,
         message := "Unsupported format: " ++ format },
   context)

/-- Transcription of `ClipboardManager::set_image_base64` from the source, with its three
collaborators passed at the interface boundary: `BASE64_STANDARD.decode`,
`RustImageData::from_bytes` and `context.set_image` (all external crates).
A decode failure is surfaced as `Status::InvalidArg`; the two later
failures as `Status::GenericFailure`. -/
def set_image_base64
    (base64_decode : String → Except String (List Nat))
    (from_bytes : List Nat → Except String RustImageData)
    (ctx_set_image : RustImageData → Except String Unit)
    (base64_data : String) : Except NapiError Unit :=
  match base64_decode base64_data with
  | Except.error e =>
    Except.error { status := Status.InvalidArg,
                   message := "Invalid base64 data: " ++ e }
  | Except.ok image_data =>
    match from_bytes image_data with
    | Except.error e =>
      Except.error { status := Status.GenericFailure,
                     message := "Failed to create image from bytes: " ++ e }
    | Except.ok rust_image =>
      match ctx_set_image rust_image with
      | Except.error e =>
        Except.error { status := Status.GenericFailure,
                       message := "Failed to set image: " ++ e }
      | Except.ok _ => Except.ok ()

/-- The `ListenerType` enum of the source: the backend handle held by an
active listener.  The `WatcherShutdown` token and the mpsc `Sender<()>` are
opaque collaborators, modelled by identifiers. -/
inductive ListenerType where
  | ClipboardRs (shutdown : Nat)
  | Wayland (stop_tx : Nat)
  deriving DecidableEq, Repr

/-- The `ClipboardListener` napi struct: an optional backend handle and the
environment flag fixed at construction. -/
structure ClipboardListener where
  listener_type : Option ListenerType
  is_wayland : Bool
  deriving DecidableEq, Repr

/-- Observable side effects of `ClipboardListener::stop`: invoking the
generic backend's shutdown token, or sending on the Wayland stop channel. -/
inductive StopAction where
  | shutdownStop (token : Nat)
  | sendStopSignal (tx : Nat)
  deriving DecidableEq, Repr

/-- Transcription of `ClipboardListener::stop` from the source: `take()` the stored handle;
if one was stored, dispatch to the matching backend's stop; always returns
`Ok(())`.  The middle component records the backend stop actions
dispatched. -/
def ClipboardListener.stop (self : ClipboardListener) :
    ClipboardListener × List StopAction × Except NapiError Unit :=
  match self.listener_type with
  | some (ListenerType.ClipboardRs shutdown) =>
    ({ self with listener_type := none },
     [StopAction.shutdownStop shutdown], Except.ok ())
  | some (ListenerType.Wayland stop_tx) =>
    ({ self with listener_type := none },
     [StopAction.sendStopSignal stop_tx], Except.ok ())
  | none => (self, [], Except.ok ())

/-- Transcription of `ClipboardListener::is_watching`: true iff a handle is stored. -/
def ClipboardListener.is_watching (self : ClipboardListener) : Bool :=
  self.listener_type.isSome

/-- Transcription of `ClipboardListener::get_listener_type`. -/
def ClipboardListener.get_listener_type (self : ClipboardListener) : String :=
  if self.is_wayland then "wayland" else "generic"

/-- Number of backend handles owned by a listener (0 or 1 by the type of
`listener_type`). -/
def handle_count (self : ClipboardListener) : Nat :=
  match self.listener_type with
  | some _ => 1
  | none => 0

/-- The stop action `ClipboardListener::stop` dispatches for a given stored
handle. -/
def stop_action_for : ListenerType → StopAction
  | ListenerType.ClipboardRs shutdown => StopAction.shutdownStop shutdown
  | ListenerType.Wayland stop_tx => StopAction.sendStopSignal stop_tx

/-- Fate of the sending half of an mpsc channel, as determined by the thread
that owns it: it sends a value, or terminates dropping the sender without
having sent, or keeps the sender alive forever without sending. -/
inductive SenderFate (α : Type) where
  | sends (v : α)
  | droppedWithoutSend
  | heldForeverWithoutSend
  deriving DecidableEq, Repr

/-- Result of `std::sync::mpsc::Receiver::recv`. -/
inductive RecvOutcome (α : Type) where
  | received (v : α)
  | disconnected
  deriving DecidableEq, Repr

/-- Semantics of `std::sync::mpsc::Receiver::recv`, per its documentation:
returns `Ok(v)` once the sender sends `v`; returns `Err(RecvError)` once the
sender is dropped without having sent; blocks forever (modelled as `none`)
only if the sender stays alive forever without sending. -/
def mpsc_recv {α : Type} : SenderFate α → Option (RecvOutcome α)
  | SenderFate.sends v => some (RecvOutcome.received v)
  | SenderFate.droppedWithoutSend => some RecvOutcome.disconnected
  | SenderFate.heldForeverWithoutSend => none

/-- Fate of the handoff sender owned by the generic backend's background
thread, transcribed from the thread closure in `watch_generic`: if
`ClipboardContext::new()` fails the thread returns at once (dropping the
sender); otherwise if `ClipboardWatcherContext::new()` fails it likewise
returns; otherwise it sends the shutdown token (and then enters
`start_watch()`).  The thread closure terminates or sends in every case, so
the sender is never held forever without a send. -/
def generic_thread_fate (ctx_ok watcher_ok : Bool) (token : Nat) :
    SenderFate Nat :=
  if ctx_ok then
    if watcher_ok then SenderFate.sends token
    else SenderFate.droppedWithoutSend
  else SenderFate.droppedWithoutSend

/-- Transcription of `ClipboardListener::watch_generic` from the source: spawn the background
thread, then block on `shutdown_rx.recv()`; store the handle only when a
token was received (`if let Ok(shutdown)`), and return `Ok(())` either way.
The outer `Option` is `none` exactly when the `recv` call never returns. -/
def ClipboardListener.watch_generic (self : ClipboardListener)
    (ctx_ok watcher_ok : Bool) (token : Nat) :
    Option (ClipboardListener × Except NapiError Unit) :=
  (mpsc_recv (generic_thread_fate ctx_ok watcher_ok token)).map fun outcome =>
    match outcome with
    | RecvOutcome.received shutdown =>
      ({ self with listener_type := some (ListenerType.ClipboardRs shutdown) },
       Except.ok ())
    | RecvOutcome.disconnected => (self, Except.ok ())

/-- Transcription of `ClipboardListener::watch_wayland` (Linux build) from the source: spawn
the background thread (whose paste-stream initialization outcome
`stream_init_ok` is never consulted), store the stop-channel sender as the
handle, and return `Ok(())` unconditionally. -/
def ClipboardListener.watch_wayland (self : ClipboardListener)
    (stop_tx : Nat) (stream_init_ok : Bool) :
    ClipboardListener × Except NapiError Unit :=
  ({ self with listener_type := some (ListenerType.Wayland stop_tx) },
   Except.ok ())

/-- The nondeterministic inputs of one `watch` call: the result of
`build_threadsafe_function().build_callback(..)`, the fresh Wayland
stop-channel sender, the Wayland background thread's stream-initialization
outcome, and the generic background thread's construction outcomes and
token. -/
structure WatchEnv where
  tsfn_build : Except NapiError Unit
  stop_tx : Nat
  stream_init_ok : Bool
  ctx_ok : Bool
  watcher_ok : Bool
  token : Nat

/-- Transcription of `ClipboardListener::watch` from the source: stop first if a handle is
stored (`stop` always succeeds, so its `?` never exits), build the
threadsafe function (propagating its error), then dispatch on `is_wayland`.
The middle component records the stop actions dispatched; the outer
`Option` is `none` exactly when the call never returns. -/
def ClipboardListener.watch (self : ClipboardListener) (env : WatchEnv) :
    Option (ClipboardListener × List StopAction × Except NapiError Unit) :=
  let stopped :=
    if self.listener_type.isSome then self.stop else (self, [], Except.ok ())
  match env.tsfn_build with
  | Except.error e => some (stopped.1, stopped.2.1, Except.error e)
  | Except.ok _ =>
    if stopped.1.is_wayland then
      let r := stopped.1.watch_wayland env.stop_tx env.stream_init_ok
      some (r.1, stopped.2.1, r.2)
    else
      (stopped.1.watch_generic env.ctx_ok env.watcher_ok env.token).map
        fun r => (r.1, stopped.2.1, r.2)

/-- Sample context in which every presence check succeeds. -/
def full_context : ClipboardContext :=
  { has := fun _ => true, get_text := some "t", get_rich_text := some "r",
    get_html := some "h", get_image := none, get_files := some [] }

/-- Sample context in which the text presence check succeeds but the text
fetch fails. -/
def text_fetch_fails_context : ClipboardContext :=
  { has := fun f => decide (f = ContentFormat.Text), get_text := none,
    get_rich_text := none, get_html := none, get_image := none,
    get_files := none }

/-- Sample context in which only text is present and its fetch succeeds. -/
def text_context : ClipboardContext :=
  { has := fun f => decide (f = ContentFormat.Text), get_text := some "hello",
    get_rich_text := none, get_html := none, get_image := none,
    get_files := none }

/-- Clipboard context with nothing present, used to instantiate C9. -/
def empty_context : ClipboardContext :=
  { has := fun _ => false, get_text := none, get_rich_text := none,
    get_html := none, get_image := none, get_files := none }

/-- Closed form of the aggregator: each tag appears exactly when its probe
succeeds, in the fixed order, and each field holds the fetch result exactly
when its probe succeeds. -/
lemma get_clipboard_data_eq (context : ClipboardContext) :
    get_clipboard_data context =
      { available_formats :=
          (if context.has ContentFormat.Text then ["text"] else []) ++
          (if context.has ContentFormat.Rtf then ["rtf"] else []) ++
          (if context.has ContentFormat.Html then ["html"] else []) ++
          (if context.has ContentFormat.Image then ["image"] else []) ++
          (if context.has ContentFormat.Files then ["files"] else []),
        text := if context.has ContentFormat.Text then context.get_text else none,
        rtf := if context.has ContentFormat.Rtf then context.get_rich_text else none,
        html := if context.has ContentFormat.Html then context.get_html else none,
        image := if context.has ContentFormat.Image then fetch_image context else none,
        files := if context.has ContentFormat.Files then context.get_files else none } := by
  cases hT : context.has ContentFormat.Text <;>
    cases hR : context.has ContentFormat.Rtf <;>
      cases hH : context.has ContentFormat.Html <;>
        cases hI : context.has ContentFormat.Image <;>
          cases hF : context.has ContentFormat.Files <;>
            simp [get_clipboard_data, format_checks, agg_step, hT, hR, hH, hI, hF]

/-- Helper: the aggregator's tag list is the canonical probe list filtered
by the presence check, projected to the tag names. -/
lemma available_formats_filter (context : ClipboardContext) :
    (get_clipboard_data context).available_formats =
      (format_checks.filter fun fc => context.has fc.2).map Prod.fst := by
  rw [get_clipboard_data_eq]
  cases hT : context.has ContentFormat.Text <;>
    cases hR : context.has ContentFormat.Rtf <;>
      cases hH : context.has ContentFormat.Html <;>
        cases hI : context.has ContentFormat.Image <;>
          cases hF : context.has ContentFormat.Files <;>
            simp [format_checks, hT, hR, hH, hI, hF]

/-- Claim C1: the Format Aggregator `get_clipboard_data` probes the five
canonical formats in the fixed order text, rtf, html, image, files; a
format's tag is appended exactly when its presence check returns true
(first conjunct); `available_formats` is a subsequence of the canonical
list with no duplicates; each field holds the fetch result exactly when the
presence check succeeded, fetch failure leaving the field absent with the
tag kept and no error raised (the function is total); and text precedes
html whenever both tags are present. -/
theorem c1_aggregator_probe_order (context : ClipboardContext) :
    ((get_clipboard_data context).available_formats =
      (format_checks.filter fun fc => context.has fc.2).map Prod.fst) ∧
    List.Sublist (get_clipboard_data context).available_formats
      ["text", "rtf", "html", "image", "files"] ∧
    (get_clipboard_data context).available_formats.Nodup ∧
    (get_clipboard_data context).text =
      (if context.has ContentFormat.Text then context.get_text else none) ∧
    (get_clipboard_data context).rtf =
      (if context.has ContentFormat.Rtf then context.get_rich_text else none) ∧
    (get_clipboard_data context).html =
      (if context.has ContentFormat.Html then context.get_html else none) ∧
    (get_clipboard_data context).image =
      (if context.has ContentFormat.Image then fetch_image context else none) ∧
    (get_clipboard_data context).files =
      (if context.has ContentFormat.Files then context.get_files else none) ∧
    ("text" ∈ (get_clipboard_data context).available_formats ∧
      "html" ∈ (get_clipboard_data context).available_formats →
      List.indexOf "text" (get_clipboard_data context).available_formats <
        List.indexOf "html" (get_clipboard_data context).available_formats) := by
  have hfilter := available_formats_filter context
  have hsub : List.Sublist (get_clipboard_data context).available_formats
      ["text", "rtf", "html", "image", "files"] := by
    rw [hfilter]
    simpa [format_checks] using
      (List.filter_sublist (p := fun fc => context.has fc.2) format_checks).map
        Prod.fst
  refine ⟨hfilter, hsub,
    (by decide : List.Nodup ["text", "rtf", "html", "image", "files"]).sublist
      hsub,
    ?_, ?_, ?_, ?_, ?_, ?_⟩
  · rw [get_clipboard_data_eq]
  · rw [get_clipboard_data_eq]
  · rw [get_clipboard_data_eq]
  · rw [get_clipboard_data_eq]
  · rw [get_clipboard_data_eq]
  · rw [hfilter]
    cases hT : context.has ContentFormat.Text <;>
      cases hR : context.has ContentFormat.Rtf <;>
        cases hH : context.has ContentFormat.Html <;>
          cases hI : context.has ContentFormat.Image <;>
            cases hF : context.has ContentFormat.Files <;>
              simp [format_checks, hT, hR, hH, hI, hF]

/-- Witness for C1 at a context holding every format: the tag order is the
canonical one and text indeed precedes html. -/
theorem c1_aggregator_probe_order_witness :
    List.indexOf "text" (get_clipboard_data full_context).available_formats <
      List.indexOf "html" (get_clipboard_data full_context).available_formats ∧
    (get_clipboard_data full_context).available_formats =
      ["text", "rtf", "html", "image", "files"] :=
  ⟨(c1_aggregator_probe_order full_context).2.2.2.2.2.2.2.2
      ⟨by decide, by decide⟩,
    by decide⟩

/-- Helper: exhaustive description of the five possible shapes of a
translated Wayland snapshot, one per arm of the translation. -/
lemma wayland_cases (message : ClipBoardListenMessage) :
    wayland_context_to_clipboard_data message =
      { available_formats := ["text"],
        text := from_utf8 message.context.context,
        rtf := none, html := none, image := none, files := none } ∨
    wayland_context_to_clipboard_data message =
      { available_formats := ["html"], text := none, rtf := none,
        html := from_utf8 message.context.context,
        image := none, files := none } ∨
    wayland_context_to_clipboard_data message =
      { available_formats := ["image"], text := none, rtf := none,
        html := none,
        image := some { width := 0, height := 0,
                        size := message.context.context.length % 4294967296,
                        data := message.context.context },
        files := none } ∨
    (∃ t, from_utf8 message.context.context = some t ∧
      wayland_context_to_clipboard_data message =
        { available_formats := ["text"], text := some t, rtf := none,
          html := none, image := none, files := none }) ∨
    wayland_context_to_clipboard_data message =
      { available_formats := [], text := none, rtf := none, html := none,
        image := none, files := none } := by
  unfold wayland_context_to_clipboard_data
  split <;>
    first
      | exact Or.inl rfl
      | exact Or.inr (Or.inl rfl)
      | exact Or.inr (Or.inr (Or.inl rfl))
      | (rcases hdec : from_utf8 message.context.context with _ | t <;>
          first
            | exact Or.inr (Or.inr (Or.inr (Or.inr rfl)))
            | exact Or.inr (Or.inr (Or.inr (Or.inl ⟨t, rfl, rfl⟩))))

/-- Claim C2: in every snapshot produced by the aggregator or by the Wayland
translation, a field is populated only if its tag is in
`available_formats`; and the converse fails in general (there is a context
whose snapshot carries the "text" tag with the text field absent). -/
theorem c2_field_only_if_tag :
    (∀ context : ClipboardContext,
      ((get_clipboard_data context).text.isSome = true →
        "text" ∈ (get_clipboard_data context).available_formats) ∧
      ((get_clipboard_data context).rtf.isSome = true →
        "rtf" ∈ (get_clipboard_data context).available_formats) ∧
      ((get_clipboard_data context).html.isSome = true →
        "html" ∈ (get_clipboard_data context).available_formats) ∧
      ((get_clipboard_data context).image.isSome = true →
        "image" ∈ (get_clipboard_data context).available_formats) ∧
      ((get_clipboard_data context).files.isSome = true →
        "files" ∈ (get_clipboard_data context).available_formats)) ∧
    (∀ message : ClipBoardListenMessage,
      ((wayland_context_to_clipboard_data message).text.isSome = true →
        "text" ∈ (wayland_context_to_clipboard_data message).available_formats) ∧
      ((wayland_context_to_clipboard_data message).rtf.isSome = true →
        "rtf" ∈ (wayland_context_to_clipboard_data message).available_formats) ∧
      ((wayland_context_to_clipboard_data message).html.isSome = true →
        "html" ∈ (wayland_context_to_clipboard_data message).available_formats) ∧
      ((wayland_context_to_clipboard_data message).image.isSome = true →
        "image" ∈ (wayland_context_to_clipboard_data message).available_formats) ∧
      ((wayland_context_to_clipboard_data message).files.isSome = true →
        "files" ∈ (wayland_context_to_clipboard_data message).available_formats)) ∧
    (∃ context : ClipboardContext,
      "text" ∈ (get_clipboard_data context).available_formats ∧
      (get_clipboard_data context).text = none) := by
  refine ⟨?_, ?_, ?_⟩
  · intro context
    rw [get_clipboard_data_eq]
    cases hT : context.has ContentFormat.Text <;>
      cases hR : context.has ContentFormat.Rtf <;>
        cases hH : context.has ContentFormat.Html <;>
          cases hI : context.has ContentFormat.Image <;>
            cases hF : context.has ContentFormat.Files <;>
              simp [hT, hR, hH, hI, hF]
  · intro message
    rcases wayland_cases message with h | h | h | ⟨t, _, h⟩ | h <;> rw [h] <;> simp
  · exact ⟨text_fetch_fails_context, by decide, by decide⟩

/-- Witness for C2: at a context with text present and fetched, the
populated text field indeed comes with the "text" tag. -/
theorem c2_field_only_if_tag_witness :
    "text" ∈ (get_clipboard_data text_context).available_formats :=
  (c2_field_only_if_tag.1 text_context).1 (by decide)

/-- Counterexample to claim C3: for the plain-text MIME type `text/plain`
with the invalid UTF-8 payload `[0xFF]`, the decode fails and yet the
"text" tag is recorded in `available_formats` (with the text field absent),
contradicting "records the tag only after the payload successfully decodes
as UTF-8; when the decode fails, the snapshot contains neither the tag nor
the field". -/
theorem c3_counterexample :
    from_utf8 [255] = none ∧
    "text" ∈ (wayland_context_to_clipboard_data
      { context := { mime_type := "text/plain", context := [255] } }).available_formats ∧
    (wayland_context_to_clipboard_data
      { context := { mime_type := "text/plain", context := [255] } }).text = none := by
  decide

/-- Claim C3 (amended): for the plain-text MIME variants and for
`text/html`, the Wayland translation records the tag unconditionally (so it
is present even when the UTF-8 decode fails), and populates the
corresponding field exactly when the payload decodes as UTF-8; only the
fallback arm for other MIME types tags conditionally on decode success. -/
theorem c3_amended_tag_pushed_before_decode (message : ClipBoardListenMessage) :
    (message.context.mime_type ∈
        ["text/plain", "text/plain;charset=utf-8", "UTF8_STRING", "STRING"] →
      (wayland_context_to_clipboard_data message).available_formats = ["text"] ∧
      (wayland_context_to_clipboard_data message).text =
        from_utf8 message.context.context) ∧
    (message.context.mime_type = "text/html" →
      (wayland_context_to_clipboard_data message).available_formats = ["html"] ∧
      (wayland_context_to_clipboard_data message).html =
        from_utf8 message.context.context) := by
  rcases message with ⟨⟨mime, payload⟩⟩
  constructor
  · intro hmem
    have h : mime ∈
        ["text/plain", "text/plain;charset=utf-8", "UTF8_STRING", "STRING"] :=
      hmem
    simp only [List.mem_cons, List.not_mem_nil, or_false] at h
    rcases h with h | h | h | h <;> subst h <;> exact ⟨rfl, rfl⟩
  · intro hmime
    have h : mime = "text/html" := hmime
    subst h
    exact ⟨rfl, rfl⟩

/-- Witness for the amended C3: a failing decode keeps the tag with an
absent field, and a successful decode fills the field. -/
theorem c3_amended_tag_pushed_before_decode_witness :
    (wayland_context_to_clipboard_data
      { context := { mime_type := "UTF8_STRING", context := [255] } }).available_formats =
      ["text"] ∧
    (wayland_context_to_clipboard_data
      { context := { mime_type := "UTF8_STRING", context := [255] } }).text =
      from_utf8 [255] ∧
    (wayland_context_to_clipboard_data
      { context := { mime_type := "text/html", context := [104, 105] } }).available_formats =
      ["html"] ∧
    (wayland_context_to_clipboard_data
      { context := { mime_type := "text/html", context := [104, 105] } }).html =
      from_utf8 [104, 105] := by
  have h1 := (c3_amended_tag_pushed_before_decode
    { context := { mime_type := "UTF8_STRING", context := [255] } }).1 (by decide)
  have h2 := (c3_amended_tag_pushed_before_decode
    { context := { mime_type := "text/html", context := [104, 105] } }).2 rfl
  exact ⟨h1.1, h1.2, h2.1, h2.2⟩

/-- Counterexample to claim C4: with `WAYLAND_DISPLAY` set to the empty
string and `XDG_SESSION_TYPE` unset, the detector returns true
(`std::env::var(..).is_ok()` only tests that the variable is set), while
the claim's policy ("set and non-empty") says false. -/
theorem c4_counterexample :
    is_wayland_environment
      { wayland_display := some "", xdg_session_type := none } = true ∧
    claimed_wayland_environment
      { wayland_display := some "", xdg_session_type := none } = false := by
  decide

/-- Claim C4 (amended): the detector returns true if and only if
`WAYLAND_DISPLAY` is set at all (empty value included) or
`XDG_SESSION_TYPE` equals the literal `"wayland"` (case-sensitive); on
platforms without native Wayland support it always returns false. -/
theorem c4_amended_detector (env : ProcEnv) :
    is_wayland_environment env =
      (env.wayland_display.isSome || env.xdg_session_type == some "wayland") ∧
    is_wayland_environment_non_linux = false := by
  refine ⟨?_, rfl⟩
  rcases env with ⟨wd, xst⟩
  rcases wd with _ | s <;> rcases xst with _ | t <;>
    simp [is_wayland_environment] <;>
    (cases ht : t == "wayland" <;> simp_all)

/-- Claim C5: a Wayland message with an image MIME type translates to a
snapshot whose `available_formats` is exactly `["image"]` and whose image
field carries width 0, height 0, size equal to the payload byte length
(given that it fits in a `u32`), and the raw bytes unre-encoded; and no
Wayland message ever populates `rtf` or `files`. -/
theorem c5_wayland_image_raw_and_no_rtf_files (message : ClipBoardListenMessage) :
    (message.context.mime_type ∈
        ["image/png", "image/jpeg", "image/gif", "image/bmp"] →
      message.context.context.length < 4294967296 →
      (wayland_context_to_clipboard_data message).available_formats =
        ["image"] ∧
      (wayland_context_to_clipboard_data message).image =
        some { width := 0, height := 0,
               size := message.context.context.length,
               data := message.context.context }) ∧
    (wayland_context_to_clipboard_data message).rtf = none ∧
    (wayland_context_to_clipboard_data message).files = none := by
  refine ⟨?_, ?_⟩
  · rcases message with ⟨⟨mime, payload⟩⟩
    intro hmem hlen
    have h : mime ∈ ["image/png", "image/jpeg", "image/gif", "image/bmp"] :=
      hmem
    have hlen' : payload.length < 4294967296 := hlen
    simp only [List.mem_cons, List.not_mem_nil, or_false] at h
    rcases h with h | h | h | h <;> subst h <;>
      exact ⟨rfl, by rw [← Nat.mod_eq_of_lt hlen']; rfl⟩
  · rcases wayland_cases message with h | h | h | ⟨t, _, h⟩ | h <;> rw [h] <;>
      exact ⟨rfl, rfl⟩

/-- Witness for C5 at the spec's own scenario: MIME `image/jpeg` with a
1024-byte payload yields `available_formats = ["image"]` and an image of
width 0, height 0, size 1024 holding the raw bytes. -/
theorem c5_wayland_image_raw_witness :
    (wayland_context_to_clipboard_data
      { context := { mime_type := "image/jpeg",
                     context := List.replicate 1024 0 } }).available_formats =
      ["image"] ∧
    (wayland_context_to_clipboard_data
      { context := { mime_type := "image/jpeg",
                     context := List.replicate 1024 0 } }).image =
      some { width := 0, height := 0, size := 1024,
             data := List.replicate 1024 0 } := by
  have h := (c5_wayland_image_raw_and_no_rtf_files
    { context := { mime_type := "image/jpeg",
                   context := List.replicate 1024 0 } }).1
    (by decide)
    (by show (List.replicate 1024 (0 : Nat)).length < 4294967296
        rw [List.length_replicate]; decide)
  refine ⟨h.1, ?_⟩
  rw [h.2]
  show some ({ width := 0, height := 0,
               size := (List.replicate 1024 (0 : Nat)).length,
               data := List.replicate 1024 0 } : ImageData) = _
  rw [List.length_replicate]

/-- Helper: a listener never owns more than one backend handle. -/
lemma handle_count_le_one (self : ClipboardListener) : handle_count self ≤ 1 := by
  unfold handle_count
  split <;> simp

/-- Counterexample to claim C6: an active generic-path listener re-armed by
`watch` while the background construction fails: the call returns with
`Ok(())` (after dispatching the stop of the old backend), yet the resulting
listener stores no handle — so "after a successful watch() exactly one
handle is stored" fails. -/
theorem c6_counterexample :
    ClipboardListener.watch
      { listener_type := some (ListenerType.ClipboardRs 0), is_wayland := false }
      { tsfn_build := Except.ok (), stop_tx := 3, stream_init_ok := true,
        ctx_ok := false, watcher_ok := true, token := 7 } =
      some ({ listener_type := none, is_wayland := false },
        [StopAction.shutdownStop 0], Except.ok ()) ∧
    ClipboardListener.is_watching
      { listener_type := none, is_wayland := false } = false :=
  ⟨rfl, rfl⟩

/-- Claim C6 (amended): `watch` on an active listener first dispatches the
stop of the currently stored backend, a listener owns at most one handle
afterwards, and when `watch` returns success a handle is stored on the
Wayland path while on the generic path one is stored exactly when the
background construction succeeded (generic `watch` can return success with
no handle stored). -/
theorem c6_amended_watch_rearm (self : ClipboardListener) (env : WatchEnv)
    (lt : ListenerType) (h : self.listener_type = some lt) :
    self.watch env ≠ none ∧
    ∀ out, self.watch env = some out →
      out.2.1 = [stop_action_for lt] ∧
      handle_count out.1 ≤ 1 ∧
      (out.2.2 = Except.ok () →
        out.1.listener_type.isSome =
          (self.is_wayland || (env.ctx_ok && env.watcher_ok))) := by
  rcases self with ⟨lto, isw⟩
  rcases env with ⟨tb, stx, sio, co, wo, tok⟩
  have h' : lto = some lt := h
  subst h'
  rcases lt with s | tx <;> rcases tb with e | u <;> cases isw <;>
    cases co <;> cases wo <;>
      refine ⟨Option.some_ne_none _, fun out hout => ?_⟩ <;>
        (have h1 := Option.some.inj hout; subst h1;
          exact ⟨rfl, handle_count_le_one _,
            by intro hc; first | rfl | exact Except.noConfusion hc⟩)

/-- Witness for the amended C6: a concrete active Wayland listener re-armed
with a fresh stop channel. -/
theorem c6_amended_watch_rearm_witness :
    (ClipboardListener.watch
      { listener_type := some (ListenerType.Wayland 5), is_wayland := true }
      { tsfn_build := Except.ok (), stop_tx := 2, stream_init_ok := false,
        ctx_ok := true, watcher_ok := true, token := 9 } ≠ none) ∧
    ([StopAction.sendStopSignal 5] = [stop_action_for (ListenerType.Wayland 5)] ∧
      handle_count
        { listener_type := some (ListenerType.Wayland 2), is_wayland := true } ≤ 1 ∧
      ((Except.ok () : Except NapiError Unit) = Except.ok () →
        (Option.some (ListenerType.Wayland 2)).isSome = (true || (true && true)))) := by
  have h := c6_amended_watch_rearm
    { listener_type := some (ListenerType.Wayland 5), is_wayland := true }
    { tsfn_build := Except.ok (), stop_tx := 2, stream_init_ok := false,
      ctx_ok := true, watcher_ok := true, token := 9 }
    (ListenerType.Wayland 5) rfl
  exact ⟨h.1, h.2
    ({ listener_type := some (ListenerType.Wayland 2), is_wayland := true },
      [StopAction.sendStopSignal 5], Except.ok ()) rfl⟩

/-- Counterexample to claim C7: with clipboard-context construction failing
on the background thread (`ctx_ok = false`), the handoff sender is dropped,
`recv` returns the disconnect error instead of blocking, and
`watch_generic` returns (`some`, with `Ok(())` and no handle stored) —
contradicting "blocks forever on the handoff-channel receive, never
returning to the caller". -/
theorem c7_counterexample :
    ClipboardListener.watch_generic
      { listener_type := none, is_wayland := false } false true 7 =
      some ({ listener_type := none, is_wayland := false }, Except.ok ()) ∧
    ClipboardListener.watch_generic
      { listener_type := none, is_wayland := false } false true 7 ≠ none :=
  ⟨rfl, Option.some_ne_none _⟩

/-- Claim C7 (amended): when handle or watch-context construction fails on
the generic backend's background thread, the thread exits dropping the
handoff sender without notifying the caller with a token; the blocking
`recv` then returns a disconnect error (it does not block forever), and
`watch_generic` returns `Ok(())` with the listener unchanged — no handle
stored. -/
theorem c7_amended_generic_setup_failure (self : ClipboardListener)
    (ctx_ok watcher_ok : Bool) (token : Nat)
    (h : ctx_ok = false ∨ watcher_ok = false) :
    generic_thread_fate ctx_ok watcher_ok token =
      SenderFate.droppedWithoutSend ∧
    mpsc_recv (generic_thread_fate ctx_ok watcher_ok token) =
      some RecvOutcome.disconnected ∧
    self.watch_generic ctx_ok watcher_ok token =
      some (self, Except.ok ()) := by
  rcases h with h | h <;> subst h
  · exact ⟨rfl, rfl, rfl⟩
  · cases ctx_ok <;> exact ⟨rfl, rfl, rfl⟩

/-- Witness for the amended C7 at a concrete listener and failing context
construction. -/
theorem c7_amended_generic_setup_failure_witness :
    generic_thread_fate false true 9 = SenderFate.droppedWithoutSend ∧
    mpsc_recv (generic_thread_fate false true 9) =
      some RecvOutcome.disconnected ∧
    ClipboardListener.watch_generic
      { listener_type := none, is_wayland := false } false true 9 =
      some ({ listener_type := none, is_wayland := false }, Except.ok ()) :=
  c7_amended_generic_setup_failure
    { listener_type := none, is_wayland := false } false true 9 (Or.inl rfl)

/-- Claim C8: the Wayland-path `watch` stores the stop-channel handle and
returns success regardless of whether the background paste-stream
initialization succeeds or fails; the two initialization outcomes produce
identical results, so a stream-initialization failure is never surfaced,
and `is_watching` becomes true. -/
theorem c8_wayland_watch_ignores_init (self : ClipboardListener)
    (stop_tx token : Nat) (stream_init_ok ctx_ok watcher_ok : Bool)
    (prev : Option ListenerType) :
    self.watch_wayland stop_tx stream_init_ok =
      ({ self with listener_type := some (ListenerType.Wayland stop_tx) },
        Except.ok ()) ∧
    (self.watch_wayland stop_tx stream_init_ok).1.is_watching = true ∧
    self.watch_wayland stop_tx true = self.watch_wayland stop_tx false ∧
    (ClipboardListener.watch { listener_type := prev, is_wayland := true }
        { tsfn_build := Except.ok (), stop_tx := stop_tx,
          stream_init_ok := stream_init_ok, ctx_ok := ctx_ok,
          watcher_ok := watcher_ok, token := token }).map
        (fun out => (out.1, out.2.2)) =
      some ({ listener_type := some (ListenerType.Wayland stop_tx),
              is_wayland := true }, Except.ok ()) := by
  refine ⟨rfl, rfl, rfl, ?_⟩
  rcases prev with _ | lt
  · rfl
  · rcases lt with s | tx <;> rfl

/-- Claim C9: `has_format` on a format string outside the supported set
fails synchronously with `Status::InvalidArg` (leaving the clipboard
context untouched), `set_image_base64` fails with `Status::InvalidArg`
whenever the base64 decode of its argument fails, and `InvalidArg` is a
distinct error kind from `GenericFailure`. -/
theorem c9_invalid_argument_errors (context : ClipboardContext)
    (format : String)
    (hfmt : format ∉ ["text", "html", "rtf", "rich_text", "image", "files"])
    (base64_decode : String → Except String (List Nat))
    (from_bytes : List Nat → Except String RustImageData)
    (ctx_set_image : RustImageData → Except String Unit)
    (b64 emsg : String) (hdec : base64_decode b64 = Except.error emsg) :
    errStatus (has_format context format).1 = some Status.InvalidArg ∧
    (has_format context format).2 = context ∧
    errStatus (set_image_base64 base64_decode from_bytes ctx_set_image b64) =
      some Status.InvalidArg ∧
    Status.InvalidArg ≠ Status.GenericFailure := by
  refine ⟨?_, rfl, ?_, by simp⟩
  · unfold has_format
    dsimp only
    split <;> simp_all [errStatus]
  · unfold set_image_base64
    rw [hdec]
    rfl

/-- Witness for C9 on the unsupported format string "bogus" and a base64
decoder that rejects the input. -/
theorem c9_invalid_argument_errors_witness :
    errStatus (has_format empty_context "bogus").1 = some Status.InvalidArg ∧
    (has_format empty_context "bogus").2 = empty_context ∧
    errStatus (set_image_base64 (fun _ => Except.error "bad padding")
      (fun _ => Except.error "not an image") (fun _ => Except.ok ()) "%%%") =
      some Status.InvalidArg ∧
    Status.InvalidArg ≠ Status.GenericFailure :=
  c9_invalid_argument_errors empty_context "bogus" (by decide)
    (fun _ => Except.error "bad padding") (fun _ => Except.error "not an image")
    (fun _ => Except.ok ()) "%%%" "bad padding" rfl

/-- Claim C10: `stop` on an idle listener is a no-op returning success with
`is_watching` still false; on any listener the stored handle is cleared, so
`is_watching` is false afterwards, the result is always `Ok(())`, and for an
active listener the matching backend stop action is dispatched. -/
theorem c10_stop_idle_noop (self : ClipboardListener) :
    (self.listener_type = none →
      self.stop = (self, [], Except.ok ()) ∧
      (self.stop).1.is_watching = false) ∧
    (self.stop).1.listener_type = none ∧
    (self.stop).1.is_watching = false ∧
    (self.stop).2.2 = Except.ok () ∧
    (∀ lt, self.listener_type = some lt →
      (self.stop).2.1 = [stop_action_for lt]) := by
  rcases self with ⟨lto, isw⟩
  rcases lto with _ | lt
  · refine ⟨fun _ => ⟨rfl, rfl⟩, rfl, rfl, rfl, ?_⟩
    intro lt h
    exact Option.noConfusion h
  · rcases lt with s | tx <;>
      refine ⟨fun h => Option.noConfusion h, rfl, rfl, rfl, fun lt' h => ?_⟩ <;>
        (have h1 := Option.some.inj h; subst h1; rfl)

/-- Witness for C10: a concrete idle listener (no-op stop) and a concrete
active listener (stop dispatches the matching backend action). -/
theorem c10_stop_idle_noop_witness :
    ClipboardListener.stop { listener_type := none, is_wayland := false } =
      ({ listener_type := none, is_wayland := false }, [], Except.ok ()) ∧
    (ClipboardListener.stop
      { listener_type := none, is_wayland := false }).1.is_watching = false ∧
    (ClipboardListener.stop
      { listener_type := some (ListenerType.Wayland 4),
        is_wayland := true }).2.1 =
      [stop_action_for (ListenerType.Wayland 4)] := by
  have h1 := (c10_stop_idle_noop
    { listener_type := none, is_wayland := false }).1 rfl
  have h2 := (c10_stop_idle_noop
    { listener_type := some (ListenerType.Wayland 4),
      is_wayland := true }).2.2.2.2 (ListenerType.Wayland 4) rfl
  exact ⟨h1.1, h1.2, h2⟩

end NodeClipboardRs
